import Mathlib

/-!
Verification development for the css-first recommendation engine.

The TypeScript sources are embedded shallowly: every pure function is translated
into an executable Lean definition, stateful code (the MDN documentation cache)
is modelled by explicit state passing, and the asynchronous documentation tiers
are modelled by explicit tier outcomes (`Option` values).  JS numbers appearing
in scoring formulas are modelled by `ℚ` (the formulas only use `+`, `*` and `/`
on small integers), browser-support percentages by `ℤ`, and timestamps by `ℤ`.

Two modules of the repository (`services/css/contextAnalyzer.ts` and
`services/css/logicalUnitsPreference.ts`) are imported by the code under
`src/` but are absent from the snapshot; the definitions standing in for them
are explicitly marked `Modelled from the spec:` in their doc comments.
-/

/-! ## String primitives

JS string operations used by the sources: `String.prototype.toLowerCase`
(the vocabulary involved is ASCII, so the per-character lowering agrees with
JS) and `String.prototype.includes` (contiguous-substring test).  -/

/-- JS `s.toLowerCase()` as a list of characters (ASCII lowering). -/
def lowerStr (s : String) : List Char := s.toList.map Char.toLower

/-- JS `hay.includes(pat)`: `containsSub pat hay` is `true` iff `pat` occurs as a
contiguous substring of `hay` (the empty pattern always occurs). -/
def containsSub (pat : List Char) : List Char → Bool
  | [] => pat.isEmpty
  | c :: rest => pat.isPrefixOf (c :: rest) || containsSub pat rest

/-- `desc.toLowerCase().includes(lit)` where the needle is taken verbatim
(the sources sometimes pass needles that contain upper-case letters). -/
def inclLower (desc : String) (lit : String) : Bool :=
  containsSub lit.toList (lowerStr desc)

/-- Test of a case-insensitive alternation regex `/(?:a|b|…)/i` against `desc`:
true iff some alternative occurs in `desc` ignoring case.  All alternatives in
`INTENT_PATTERNS` are literal words, so the regex test is exactly a
case-insensitive substring test. -/
def regexAltTest (desc : String) (alts : List String) : Bool :=
  alts.any (fun lit => containsSub (lowerStr lit) (lowerStr desc))

/-- Worker for `jsDedup`: `seen` holds the elements already emitted. -/
def jsDedupAux {α : Type} [DecidableEq α] (seen : List α) : List α → List α
  | [] => []
  | x :: xs =>
      if seen.contains x then jsDedupAux seen xs
      else x :: jsDedupAux (seen ++ [x]) xs

/-- JS `[...new Set(xs)]`: deduplication keeping the first occurrence of each
element, in order. -/
def jsDedup {α : Type} [DecidableEq α] (l : List α) : List α :=
  jsDedupAux [] l

/-- JS `Array.prototype.join(" ")`. -/
def joinSpace : List String → String
  | [] => ""
  | [s] => s
  | s :: rest => s ++ " " ++ joinSpace rest

/-! ## Data model (`services/css/types.ts`)

The category and support-level enumerations are closed; their constructors
are the values appearing in the feature modules and in the spec's §3 data
model. -/

/-- `CSSFeatureCategory` enumeration. -/
inductive CSSFeatureCategory
  | layout | animation | visual | responsive | interaction
  | logical | positioning | display
deriving DecidableEq, Repr

/-- Support tiers (`support_level` in the feature modules). -/
inductive SupportLevel
  | excellent | good | moderate | limited | experimental
deriving DecidableEq, Repr

/-- A feature-catalog entry (`CSSFeature` in `services/css/types.ts`). -/
structure CSSFeature where
  name : String
  category : CSSFeatureCategory
  properties : List String
  description : String
  support_level : SupportLevel
  mdn_url : String
deriving DecidableEq, Repr

/-! ## Search (`services/css/features/utils.ts`, `searchFeatures`)

The source builds, for each catalog entry, the space-separated concatenation
of its name, description and property list, lower-cases it, and keeps the
entry when some keyword (lower-cased) occurs in that text.  Results are pushed
in catalog iteration order.  The catalog is passed explicitly (in the source
it is the module-level `CSS_FEATURES` registry assembled from the feature
modules). -/

/-- The text searched for a feature:
``  `${feature.name} ${feature.description} ${feature.properties.join(" ")}`  ``. -/
def featureText (f : CSSFeature) : String :=
  f.name ++ " " ++ f.description ++ " " ++ joinSpace f.properties

/-- The candidate test of `searchFeatures`: some keyword is a case-insensitive
substring of the feature's text. -/
def featureMatches (keywords : List String) (f : CSSFeature) : Bool :=
  keywords.any (fun keyword =>
    containsSub (lowerStr keyword) (lowerStr (featureText f)))

/-- The `for … results.push(…)` loop of `searchFeatures`, with the accumulator
made explicit. -/
def searchFeaturesAux (keywords : List String) (acc : List CSSFeature) :
    List CSSFeature → List CSSFeature
  | [] => acc
  | f :: rest =>
      searchFeaturesAux keywords
        (if featureMatches keywords f then acc ++ [f] else acc) rest

/-- `searchFeatures(keywords)` over an explicit catalog. -/
def searchFeatures (catalog : List CSSFeature) (keywords : List String) :
    List CSSFeature :=
  searchFeaturesAux keywords [] catalog

/-! ## Approach filter (`services/css/suggestions.ts`, `shouldIncludeBasedOnApproach`) -/

/-- The `approach` argument of the suggestion entry point. -/
inductive Approach
  | modern | compatible | progressive
deriving DecidableEq, Repr

/-- `shouldIncludeBasedOnApproach` (suggestions.ts lines 484–498). -/
def shouldIncludeBasedOnApproach (supportLevel : SupportLevel)
    (approach : Approach) : Bool :=
  match approach with
  | .modern =>
      [SupportLevel.excellent, SupportLevel.good, SupportLevel.experimental].contains
        supportLevel
  | .compatible => supportLevel = SupportLevel.excellent
  | .progressive => true

/-! ## Concrete catalog entries used as test inputs

Translated verbatim from the feature modules present in the snapshot. -/

/-- `GRID_FEATURES.grid` (features/layout/grid/properties.ts). -/
def gridFeature : CSSFeature :=
  { name := "CSS Grid"
    category := .layout
    properties :=
      ["display", "grid-template-columns", "grid-template-rows", "gap",
       "row-gap", "column-gap", "grid-column", "grid-row",
       "grid-column-start", "grid-column-end", "grid-row-start",
       "grid-row-end", "grid-area", "grid-template-areas", "grid-template"]
    description := "Two-dimensional grid layout system"
    support_level := .excellent
    mdn_url := "https://developer.mozilla.org/en-US/docs/Web/CSS/CSS_Grid_Layout" }

/-- `ANIMATION_FEATURES.transitions` (features/animation/properties.ts). -/
def transitionsFeature : CSSFeature :=
  { name := "CSS Transitions"
    category := .animation
    properties :=
      ["transition", "transition-property", "transition-duration",
       "transition-timing-function", "transition-delay"]
    description := "Smooth animations between property changes"
    support_level := .excellent
    mdn_url := "https://developer.mozilla.org/en-US/docs/Web/CSS/CSS_Transitions" }

/-- `INTERACTION_FEATURES["scroll-snap"]` (features/interaction properties). -/
def scrollSnapFeature : CSSFeature :=
  { name := "Scroll Snap"
    category := .interaction
    properties :=
      ["scroll-snap-type", "scroll-snap-align", "scroll-behavior",
       "scroll-snap-stop", "scroll-padding", "scroll-margin"]
    description := "Control scroll snapping behavior for carousels and scrollable content"
    support_level := .good
    mdn_url := "https://developer.mozilla.org/en-US/docs/Web/CSS/CSS_Scroll_Snap" }

/-! ## Theorems for the search and approach-filter claims -/

theorem searchFeaturesAux_eq (keywords : List String) :
    ∀ (catalog acc : List CSSFeature),
      searchFeaturesAux keywords acc catalog =
        acc ++ catalog.filter (featureMatches keywords) := by
  intro catalog
  induction catalog with
  | nil => intro acc; simp [searchFeaturesAux]
  | cons f rest ih =>
      intro acc
      by_cases h : featureMatches keywords f = true
      · simp [searchFeaturesAux, h, ih]
      · simp only [Bool.not_eq_true] at h
        simp [searchFeaturesAux, h, ih]

/-- C5: `searchFeatures` returns exactly the catalog entries for which some
keyword is a case-insensitive substring of the concatenation of the entry's
name, description and property list, in catalog iteration order (it is the
filter of the catalog by the keyword test, hence performs no ranking), and
every result is a member of the catalog. -/
theorem searchFeatures_is_filter (catalog : List CSSFeature)
    (keywords : List String) :
    searchFeatures catalog keywords =
      catalog.filter (fun f =>
        keywords.any (fun keyword =>
          containsSub (lowerStr keyword) (lowerStr (featureText f)))) ∧
    ∀ f, f ∈ searchFeatures catalog keywords → f ∈ catalog := by
  constructor
  · simpa [searchFeatures, featureMatches] using
      searchFeaturesAux_eq keywords catalog []
  · intro f hf
    have h := searchFeaturesAux_eq keywords catalog []
    simp only [searchFeatures] at hf
    rw [h] at hf
    simp only [List.nil_append] at hf
    exact List.mem_of_mem_filter hf

/-- Witness for `searchFeatures_is_filter` at a concrete catalog: searching
`["grid"]` over `[gridFeature, transitionsFeature]` keeps exactly the grid
entry, and the membership part applies to it. -/
theorem searchFeatures_is_filter_witness :
    searchFeatures [gridFeature, transitionsFeature] ["grid"] = [gridFeature] ∧
    gridFeature ∈ [gridFeature, transitionsFeature] :=
  ⟨by decide,
   (searchFeatures_is_filter [gridFeature, transitionsFeature] ["grid"]).2
     gridFeature (by decide)⟩

/-- C2: the approach filter admits a candidate exactly as claimed:
`compatible` keeps only `excellent`; `modern` keeps exactly
`excellent`/`good`/`experimental`; `progressive` keeps every tier. -/
theorem shouldIncludeBasedOnApproach_spec
    (tier : SupportLevel) (approach : Approach) :
    shouldIncludeBasedOnApproach tier approach = true ↔
      (approach = .compatible ∧ tier = .excellent) ∨
      (approach = .modern ∧
        (tier = .excellent ∨ tier = .good ∨ tier = .experimental)) ∨
      approach = .progressive := by
  cases tier <;> cases approach <;> simp [shouldIncludeBasedOnApproach]

/-! ## Intent classifier (`services/css/suggestions.ts`, `analyzeTaskIntent`)

`INTENT_PATTERNS` maps each intent label to its pattern set and suggested
categories.  Every regex in the source is a case-insensitive alternation of
literal words, embedded here as the list of its alternatives. -/

/-- One entry of the `INTENT_PATTERNS` table. -/
structure IntentEntry where
  name : String
  patterns : List (List String)
  categories : List CSSFeatureCategory

/-- The `INTENT_PATTERNS` table (suggestions.ts lines 12–62). -/
def INTENT_PATTERNS : List IntentEntry :=
  [ { name := "layout"
      patterns :=
        [["arrange", "organize", "position", "place", "layout"],
         ["center", "align", "justify", "distribute"],
         ["column", "row", "grid", "flex"],
         ["beside", "above", "below", "next to", "in a row"]]
      categories := [.layout] },
    { name := "animation"
      patterns :=
        [["animate", "transition", "move", "slide", "fade", "hover"],
         ["smooth", "ease", "duration", "timing"],
         ["transform", "translate", "rotate", "scale"]]
      categories := [.animation] },
    { name := "spacing"
      patterns :=
        [["space", "spacing", "gap", "margin", "padding"],
         ["between", "around", "inside", "outside"],
         ["tight", "loose", "compressed", "expanded"]]
      categories := [.logical] },
    { name := "responsive"
      patterns :=
        [["responsive", "mobile", "tablet", "desktop", "breakpoint"],
         ["small screen", "large screen", "different sizes"],
         ["adapt", "resize", "scale", "fit"]]
      categories := [.responsive] },
    { name := "visual"
      patterns :=
        [["color", "background", "border", "shadow", "gradient"],
         ["appearance", "style", "design", "look"],
         ["opacity", "transparency", "blur"]]
      categories := [.visual] },
    { name := "interaction"
      patterns :=
        [["click", "hover", "focus", "active", "disabled"],
         ["interactive", "button", "link", "form"],
         ["state", "feedback", "response"]]
      categories := [.interaction] } ]

/-- The `FRAMEWORK_INDICATORS` table (suggestions.ts lines 65–71).  The
indicators are passed verbatim to `description.toLowerCase().includes(...)`,
so indicators that contain upper-case letters (`useState`, `ngIf`,
`className=`, …) can never match — preserved as in the source. -/
def FRAMEWORK_INDICATORS : List (String × List String) :=
  [ ("react", ["component", "jsx", "react", "useState", "useEffect"]),
    ("vue", ["template", "v-if", "v-for", "vue", "composition"]),
    ("angular", ["angular", "component", "directive", "ngIf", "ngFor"]),
    ("tailwind", ["tailwind", "tw-", "class=", "className="]),
    ("bootstrap", ["bootstrap", "btn-", "col-", "row", "container"]) ]

/-- `extractLegacyKeywords` (suggestions.ts lines 164–272); the unused
`words` split of the source is dropped.  Each `keywords.push(...)` becomes an
append, and the final `[...new Set(keywords)]` is `jsDedup`. -/
def extractLegacyKeywords (description : String) : List String :=
  let incl := fun lit => inclLower description lit
  let cssProperties :=
    ["height", "width", "position", "display", "flex", "grid", "margin",
     "padding", "border", "background", "color", "font", "text", "transform",
     "transition", "animation"]
  let k := cssProperties.filter incl
  let k := k ++ (if incl "full" && incl "height" then
    ["height", "100vh", "100dvh", "dvh", "svh", "lvh", "block-size", "min-height"] else [])
  let k := k ++ (if incl "mobile" || incl "phone" then
    ["dvh", "svh", "lvh", "mobile-viewport", "browser-ui", "@media"] ++
    (if incl "height" || incl "screen" || incl "full" then
      ["100dvh", "height", "block-size", "viewport-height"] else []) else [])
  let k := k ++ (if incl "header" then
    ["header"] ++
    (if incl "stick" || incl "fix" then ["sticky", "fixed", "position"] else []) ++
    (if incl "full" || incl "height" then
      ["height", "min-height", "dvh", "100dvh"] else []) else [])
  let k := k ++ (if incl "center" || incl "align" then
    ["center", "align", "justify-content", "align-items", "flex", "grid"] else [])
  let k := k ++ (if incl "carousel" || incl "slider" || incl "gallery" then
    ["scroll-snap-type", "overflow-inline", "scroll-behavior",
     "::scroll-marker", "::scroll-button", "flex"] else [])
  let k := k ++ (if incl "theme" || incl "dark" || incl "light" then
    ["light-dark", "color-scheme", "prefers-color-scheme", "@media"] else [])
  let k := k ++ (if incl "form" then
    ["form"] ++
    (if incl "valid" || incl "error" then
      [":user-valid", ":user-invalid", ":invalid", ":valid"] else []) else [])
  let k := k ++ (if incl "modal" || incl "dialog" || incl "popup" then
    ["dialog", ":target", "position", "fixed", "backdrop-filter"] else [])
  let k := k ++ (if incl "nav" || incl "menu" then
    ["nav", "menu"] ++
    (if incl "hamburger" || incl "mobile" then
      [":checked", "position", "transform"] else []) else [])
  let k := k ++ (if incl "animate" || incl "transition" then
    ["animation", "transition", "@keyframes"] ++
    (if incl "scroll" then ["scroll-timeline", "animation-timeline"] else []) else [])
  let k := k ++ (if incl "responsive" || incl "breakpoint" then
    ["@media", "container", "clamp", "min", "max"] else [])
  let k := k ++ (if incl "always" then ["min-height", "100%", "vh", "dvh"] else [])
  let k := k ++ (if incl "section" then ["section", "height", "min-height"] else [])
  let k := k ++ (if incl "device" then ["dvh", "svh", "@media", "viewport"] else [])
  jsDedup k

/-- Structured hints produced by the Context Analyzer. -/
structure ContextAnalysis where
  framework : Option String
  cssFramework : Option String
deriving DecidableEq, Repr

/-- Modelled from the spec: `services/css/contextAnalyzer.ts` is imported by
`suggestions.ts` but absent from the source snapshot.  Per §4.1, the Context
Analyzer inspects an optional free-form context signal by substring matching
against known framework vocabularies, and absence or malformed input degrades
to empty hints rather than an error. -/
def analyzeProjectContext (projectContext : Option String) : ContextAnalysis :=
  match projectContext with
  | none => { framework := none, cssFramework := none }
  | some ctx =>
      { framework :=
          if inclLower ctx "react" then some "react"
          else if inclLower ctx "vue" then some "vue"
          else if inclLower ctx "angular" then some "angular"
          else none
        cssFramework :=
          if inclLower ctx "tailwind" then some "tailwind"
          else if inclLower ctx "bootstrap" then some "bootstrap"
          else none }

/-- Result record of `analyzeTaskIntent`.  The `recommendations` field of the
source is built entirely by the absent `contextAnalyzer.ts` /
`logicalUnitsPreference.ts` modules and is referenced by no claim; it is
omitted from the embedding. -/
structure TaskIntentAnalysis where
  keywords : List String
  intent : List String
  confidence : ℚ
  suggestedCategories : List CSSFeatureCategory
  frameworkHints : List String
  contextAnalysis : ContextAnalysis
deriving DecidableEq, Repr

/-- Accumulator of the `for (const [intentType, config] of
Object.entries(INTENT_PATTERNS))` loop. -/
structure IntentAcc where
  totalPatterns : ℕ
  totalMatches : ℕ
  intent : List String
  suggestedCategories : List CSSFeatureCategory

/-- One iteration of the intent loop: count the matching patterns of the
entry (each evaluated pattern increments `totalPatterns`, each match
increments both counters), and record the intent label and its categories
when at least one pattern matched. -/
def intentStep (description : String) (acc : IntentAcc) (entry : IntentEntry) :
    IntentAcc :=
  let intentMatches := entry.patterns.countP (fun alts => regexAltTest description alts)
  { totalPatterns := acc.totalPatterns + entry.patterns.length
    totalMatches := acc.totalMatches + intentMatches
    intent := if 0 < intentMatches then acc.intent ++ [entry.name] else acc.intent
    suggestedCategories :=
      if 0 < intentMatches then acc.suggestedCategories ++ entry.categories
      else acc.suggestedCategories }

/-- `analyzeTaskIntent` (suggestions.ts lines 79–159). -/
def analyzeTaskIntent (description : String)
    (projectContext : Option String := none) : TaskIntentAnalysis :=
  let contextAnalysis := analyzeProjectContext projectContext
  let acc := INTENT_PATTERNS.foldl (intentStep description) ⟨0, 0, [], []⟩
  let ctxHints :=
    (match contextAnalysis.framework with | some f => [f] | none => []) ++
    (match contextAnalysis.cssFramework with | some f => [f] | none => [])
  let descHints :=
    (FRAMEWORK_INDICATORS.filter
      (fun p => p.2.any (fun ind => inclLower description ind))).map (·.1)
  let confidence : ℚ :=
    if 0 < acc.totalPatterns then (acc.totalMatches : ℚ) / (acc.totalPatterns : ℚ)
    else 0
  { keywords := jsDedup (extractLegacyKeywords description)
    intent := jsDedup acc.intent
    confidence := confidence
    suggestedCategories := jsDedup acc.suggestedCategories
    frameworkHints := jsDedup (ctxHints ++ descHints)
    contextAnalysis := contextAnalysis }

/-- Claim-side counter: total number of patterns evaluated across all
categories (independent of the description — categories with zero matches
still contribute their pattern count). -/
def totalPatternsEvaluated : ℕ :=
  (INTENT_PATTERNS.map (fun e => e.patterns.length)).sum

/-- Claim-side counter: total number of patterns matched across all
categories. -/
def totalPatternsMatched (description : String) : ℕ :=
  (INTENT_PATTERNS.map
    (fun e => e.patterns.countP (fun alts => regexAltTest description alts))).sum

theorem intentFold_totalPatterns (description : String) :
    (INTENT_PATTERNS.foldl (intentStep description) ⟨0, 0, [], []⟩).totalPatterns =
      totalPatternsEvaluated ∧
    (INTENT_PATTERNS.foldl (intentStep description) ⟨0, 0, [], []⟩).totalMatches =
      totalPatternsMatched description := by
  constructor
  · simp [INTENT_PATTERNS, intentStep, totalPatternsEvaluated, List.foldl]
  · simp only [INTENT_PATTERNS, intentStep, totalPatternsMatched, List.foldl,
      List.map_cons, List.map_nil, List.sum_cons, List.sum_nil]
    omega

theorem totalPatternsMatched_le (description : String) :
    totalPatternsMatched description ≤ totalPatternsEvaluated := by
  unfold totalPatternsMatched totalPatternsEvaluated
  exact List.sum_le_sum (fun e _ => List.countP_le_length _)

/-- C1: for every description (and any project context), the confidence of
`analyzeTaskIntent` equals (total patterns matched across all categories) /
(total patterns evaluated across all categories); the denominator is the
constant pattern count 19 — categories with zero matches still contribute
their pattern count — so confidence always lies in `[0, 1]`; and the empty
description yields confidence 0 and an empty intent set. -/
theorem analyzeTaskIntent_confidence_spec (description : String)
    (projectContext : Option String) :
    (analyzeTaskIntent description projectContext).confidence =
      (totalPatternsMatched description : ℚ) / (totalPatternsEvaluated : ℚ) ∧
    totalPatternsEvaluated = 19 ∧
    0 ≤ (analyzeTaskIntent description projectContext).confidence ∧
    (analyzeTaskIntent description projectContext).confidence ≤ 1 ∧
    (analyzeTaskIntent "" projectContext).confidence = 0 ∧
    (analyzeTaskIntent "" projectContext).intent = [] := by
  have htot : totalPatternsEvaluated = 19 := by decide
  have hconf : ∀ d : String, (analyzeTaskIntent d projectContext).confidence =
      (totalPatternsMatched d : ℚ) / (totalPatternsEvaluated : ℚ) := by
    intro d
    have hacc := intentFold_totalPatterns d
    simp only [analyzeTaskIntent]
    rw [hacc.1, hacc.2, htot]
    norm_num
  refine ⟨hconf description, htot, ?_, ?_, ?_, ?_⟩
  · rw [hconf description]
    positivity
  · rw [hconf description]
    apply div_le_one_of_le₀
    · exact_mod_cast totalPatternsMatched_le description
    · positivity
  · rw [hconf ""]
    have hz : totalPatternsMatched "" = 0 := by decide
    rw [hz]
    norm_num
  · simp only [analyzeTaskIntent]
    decide

/-! ## Relevance ranker (`services/css/suggestions.ts`, `calculateRelevanceScore`) -/

/-- `calculateRelevanceScore` (suggestions.ts lines 375–399): the sequence of
conditional `score +=` statements followed by the confidence multiplier. -/
def calculateRelevanceScore (feature : CSSFeature)
    (analysis : TaskIntentAnalysis) : ℚ :=
  let score : ℚ := 0
  let score := if analysis.intent.contains "layout" &&
      feature.category == CSSFeatureCategory.layout then score + 10 else score
  let score := if analysis.intent.contains "animation" &&
      feature.category == CSSFeatureCategory.animation then score + 10 else score
  let score := if analysis.intent.contains "spacing" &&
      feature.category == CSSFeatureCategory.logical then score + 10 else score
  let score := if feature.support_level == SupportLevel.excellent then score + 5
    else score
  let score := if feature.support_level == SupportLevel.good then score + 3
    else score
  let score := if analysis.frameworkHints.contains "react" &&
      feature.properties.contains "flex" then score + 3 else score
  let score := if analysis.frameworkHints.contains "tailwind" &&
      feature.properties.contains "grid" then score + 3 else score
  score * (1 + analysis.confidence)

/-- C3: the relevance score is the sum of the claimed bonuses — +10 per
matching intent/category pair (layout↔layout, animation↔animation,
spacing↔logical), +5 for an excellent support tier, +3 for a good one, +3
per detected framework hint with a known property affinity (react↔flex,
tailwind↔grid) — multiplied by (1 + confidence). -/
theorem calculateRelevanceScore_spec (feature : CSSFeature)
    (analysis : TaskIntentAnalysis) :
    calculateRelevanceScore feature analysis =
      ((if analysis.intent.contains "layout" = true ∧
            feature.category = CSSFeatureCategory.layout then (10 : ℚ) else 0) +
       (if analysis.intent.contains "animation" = true ∧
            feature.category = CSSFeatureCategory.animation then 10 else 0) +
       (if analysis.intent.contains "spacing" = true ∧
            feature.category = CSSFeatureCategory.logical then 10 else 0) +
       (if feature.support_level = SupportLevel.excellent then 5 else 0) +
       (if feature.support_level = SupportLevel.good then 3 else 0) +
       (if analysis.frameworkHints.contains "react" = true ∧
            feature.properties.contains "flex" = true then 3 else 0) +
       (if analysis.frameworkHints.contains "tailwind" = true ∧
            feature.properties.contains "grid" = true then 3 else 0)) *
      (1 + analysis.confidence) := by
  have step : ∀ (c : Prop) (inst : Decidable c) (s a : ℚ),
      (if c then s + a else s) = s + (if c then a else 0) := by
    intro c inst s a
    split_ifs <;> ring
  simp only [calculateRelevanceScore, Bool.and_eq_true, beq_iff_eq]
  rw [step, step, step, step, step, step, step]
  ring

/-! ## Suggestions and the ranked search pipeline
(`services/css/suggestions.ts`, `searchWithIntelligentRanking`)

The asynchronous per-property enrichment (`fetchMDNData(p).syntax` and
`fetchBrowserSupportFromMDN(p).overall_support`) is passed in as explicit
functions of the property name; the pipeline itself never inspects them
beyond copying their values into the built suggestion. -/

/-- The `browser_support` block of a suggestion. -/
structure BrowserSupportBlock where
  overall_support : ℤ
  modern_browsers : Bool
  legacy_support : String
deriving DecidableEq, Repr

/-- `CSSPropertySuggestion` plus the transient `relevanceScore` attached by
the ranked path (`(suggestion as any).relevanceScore`); `none` models a
suggestion the field was never set on.  The source's `syntax` field is named
`syntaxStr` here. -/
structure CSSPropertySuggestion where
  property : String
  description : String
  syntaxStr : String
  browser_support : BrowserSupportBlock
  use_cases : List String
  mdn_url : String
  relevanceScore : Option ℚ
deriving DecidableEq, Repr

/-- The sort key `((s as any).relevanceScore || 0)` used by the final sort. -/
def sortKey (s : CSSPropertySuggestion) : ℚ := s.relevanceScore.getD 0

/-- `getFeatureSyntax` (suggestions.ts lines 503–506). -/
def getFeatureSyntax (featureName : String) : String := featureName ++ ": value;"

/-- `getFeatureUseCases` (suggestions.ts lines 511–514). -/
def getFeatureUseCases (_featureName : String) : List String :=
  ["General styling", "UI enhancement"]

/-- The suggestion built by the scored loop of `searchWithIntelligentRanking`
(suggestions.ts lines 325–351): `mdnSyntax p = none` models a missing/falsy
`mdnData.syntax`, in which case `getFeatureSyntax` is the fallback. -/
def scoredSuggestion (mdnSyntax : String → Option String)
    (overallSupport : String → ℤ) (analysis : TaskIntentAnalysis)
    (feature : CSSFeature) : CSSPropertySuggestion :=
  let p := feature.properties.headD ""
  { property := p
    description := feature.description
    syntaxStr := (mdnSyntax p).getD (getFeatureSyntax feature.name)
    browser_support :=
      { overall_support := overallSupport p
        modern_browsers := overallSupport p ≥ 85
        legacy_support := if overallSupport p ≥ 70 then "good" else "limited" }
    use_cases := getFeatureUseCases feature.name
    mdn_url := feature.mdn_url
    relevanceScore := some (calculateRelevanceScore feature analysis) }

/-- `createSuggestionFromFeature` (suggestions.ts lines 466–479): the
fallback-path suggestion, which never receives a `relevanceScore`. -/
def createSuggestionFromFeature (overallSupport : String → ℤ)
    (feature : CSSFeature) : CSSPropertySuggestion :=
  let p := feature.properties.headD ""
  { property := p
    description := feature.description
    syntaxStr := getFeatureSyntax feature.name
    browser_support :=
      { overall_support := overallSupport p
        modern_browsers := overallSupport p ≥ 85
        legacy_support := if overallSupport p ≥ 70 then "good" else "limited" }
    use_cases := getFeatureUseCases feature.name
    mdn_url := feature.mdn_url
    relevanceScore := none }

/-! ### The final sort

JS `Array.prototype.sort` with comparator `(a, b) => keyB - keyA` is a stable
descending sort; stable sorting by a total preorder has a unique result, so
any stable implementation embeds it faithfully.  We use insertion sort, which
places each element before the first element whose key is not larger. -/

/-- Stable descending insertion: `a` passes elements with strictly larger key
and lands before the first element whose key is `≤` its own. -/
def insertDesc (a : CSSPropertySuggestion) :
    List CSSPropertySuggestion → List CSSPropertySuggestion
  | [] => [a]
  | y :: ys => if sortKey a < sortKey y then y :: insertDesc a ys else a :: y :: ys

/-- Stable descending sort by `sortKey`
(the `.sort((a, b) => (b.relevanceScore || 0) - (a.relevanceScore || 0))`). -/
def sortByScoreDesc : List CSSPropertySuggestion → List CSSPropertySuggestion
  | [] => []
  | a :: rest => insertDesc a (sortByScoreDesc rest)

/-! ### Logical-unit preference pass

`services/css/logicalUnitsPreference.ts` is imported by `suggestions.ts` but
absent from the source snapshot; the pass is modelled from the spec. -/

/-- Modelled from the spec: the known physical-direction → writing-mode-relative
property equivalences of §4.7 and the glossary (left/right/top/bottom/
width/height and their margin/padding variants versus inline/block-based
logical properties). -/
def logicalEquivalent : String → Option String
  | "width" => some "inline-size"
  | "height" => some "block-size"
  | "left" => some "inset-inline-start"
  | "right" => some "inset-inline-end"
  | "top" => some "inset-block-start"
  | "bottom" => some "inset-block-end"
  | "margin-left" => some "margin-inline-start"
  | "margin-right" => some "margin-inline-end"
  | "margin-top" => some "margin-block-start"
  | "margin-bottom" => some "margin-block-end"
  | "padding-left" => some "padding-inline-start"
  | "padding-right" => some "padding-inline-end"
  | "padding-top" => some "padding-block-start"
  | "padding-bottom" => some "padding-block-end"
  | _ => none

/-- Modelled from the spec (§4.7): `b` is promotable ahead of `a` when the two
are otherwise equal-scored and `b`'s primary property is the writing-mode
relative equivalent of `a`'s physical one. -/
def promotablePair (a b : CSSPropertySuggestion) : Bool :=
  sortKey a == sortKey b && logicalEquivalent a.property == some b.property

/-- Remove the first element satisfying `p`, returning it and the remainder
in order. -/
def extractFirst (p : CSSPropertySuggestion → Bool) :
    List CSSPropertySuggestion →
      Option (CSSPropertySuggestion × List CSSPropertySuggestion)
  | [] => none
  | y :: ys =>
      if p y then some (y, ys)
      else
        match extractFirst p ys with
        | some (b, rest) => some (b, y :: rest)
        | none => none

/-- Fuelled worker for the preference pass (the fuel is only a structural
termination device; `l.length` steps always suffice). -/
def rankPassAux : ℕ → List CSSPropertySuggestion → List CSSPropertySuggestion
  | 0, l => l
  | _ + 1, [] => []
  | fuel + 1, a :: rest =>
      match extractFirst (promotablePair a) rest with
      | some (b, rest') => b :: a :: rankPassAux fuel rest'
      | none => a :: rankPassAux fuel rest

/-- Modelled from the spec (§4.7): a stable reorder that promotes, for each
candidate whose primary property has a writing-mode-relative equivalent, the
first later equal-scored candidate carrying that equivalent to just before
it, and never reorders candidates not in such a relationship. -/
def rankByLogicalPreference (l : List CSSPropertySuggestion) :
    List CSSPropertySuggestion :=
  rankPassAux l.length l

/-- `true` when no candidate has a later equal-scored writing-mode-relative
equivalent, i.e. the preference pass has nothing to promote. -/
def noPromotablePairs : List CSSPropertySuggestion → Bool
  | [] => true
  | a :: rest => rest.all (fun b => !(promotablePair a b)) && noPromotablePairs rest

/-! ### The pipeline -/

/-- The scored candidate list built by the category loop of
`searchWithIntelligentRanking` (suggestions.ts lines 321–353): one identical
keyword search per suggested category, the category value itself unused. -/
def scoredCandidates (catalog : List CSSFeature)
    (mdnSyntax : String → Option String) (overallSupport : String → ℤ)
    (analysis : TaskIntentAnalysis) (approach : Approach) :
    List CSSPropertySuggestion :=
  (analysis.suggestedCategories.map (fun _ =>
    ((searchFeatures catalog analysis.keywords).filter
        (fun f => shouldIncludeBasedOnApproach f.support_level approach)).map
      (scoredSuggestion mdnSyntax overallSupport analysis))).flatten

/-- The final ranking step applied to the assembled candidates
(suggestions.ts lines 364–369): logical-preference pass, stable descending
sort by relevance score, truncation to 5. -/
def rankAndTruncate (suggestions : List CSSPropertySuggestion) :
    List CSSPropertySuggestion :=
  (sortByScoreDesc (rankByLogicalPreference suggestions)).take 5

/-- `searchWithIntelligentRanking` (suggestions.ts lines 307–370). -/
def searchWithIntelligentRanking (catalog : List CSSFeature)
    (mdnSyntax : String → Option String) (overallSupport : String → ℤ)
    (analysis : TaskIntentAnalysis) (approach : Approach) :
    List CSSPropertySuggestion :=
  let suggestions := scoredCandidates catalog mdnSyntax overallSupport analysis approach
  let suggestions :=
    if suggestions.isEmpty then
      ((searchFeatures catalog analysis.keywords).take 5).map
        (createSuggestionFromFeature overallSupport)
    else suggestions
  rankAndTruncate suggestions

/-! ### Properties of the sort and of the preference pass -/

theorem mem_insertDesc (a b : CSSPropertySuggestion) :
    ∀ l, b ∈ insertDesc a l ↔ b = a ∨ b ∈ l := by
  intro l
  induction l with
  | nil => simp [insertDesc]
  | cons y ys ih =>
      by_cases h : sortKey a < sortKey y
      · simp [insertDesc, h, ih]
        tauto
      · simp [insertDesc, h]

theorem sorted_insertDesc (a : CSSPropertySuggestion) :
    ∀ l, List.Pairwise (fun x y => sortKey y ≤ sortKey x) l →
      List.Pairwise (fun x y => sortKey y ≤ sortKey x) (insertDesc a l) := by
  intro l
  induction l with
  | nil => intro; simp [insertDesc]
  | cons y ys ih =>
      intro hp
      rw [List.pairwise_cons] at hp
      by_cases h : sortKey a < sortKey y
      · simp only [insertDesc, if_pos h]
        rw [List.pairwise_cons]
        refine ⟨?_, ih hp.2⟩
        intro z hz
        rcases (mem_insertDesc a z ys).1 hz with rfl | hmem
        · exact le_of_lt h
        · exact hp.1 z hmem
      · simp only [insertDesc, if_neg h]
        push_neg at h
        rw [List.pairwise_cons]
        refine ⟨?_, List.pairwise_cons.2 hp⟩
        intro z hz
        rcases List.mem_cons.1 hz with h1 | hmem
        · exact h1 ▸ h
        · exact (hp.1 z hmem).trans h

theorem sorted_sortByScoreDesc (l : List CSSPropertySuggestion) :
    List.Pairwise (fun x y => sortKey y ≤ sortKey x) (sortByScoreDesc l) := by
  induction l with
  | nil => simp [sortByScoreDesc]
  | cons a rest ih => exact sorted_insertDesc a (sortByScoreDesc rest) ih

theorem filter_insertDesc (a : CSSPropertySuggestion) (q : ℚ) :
    ∀ l, (insertDesc a l).filter (fun s => sortKey s == q) =
      if sortKey a = q then a :: l.filter (fun s => sortKey s == q)
      else l.filter (fun s => sortKey s == q) := by
  intro l
  induction l with
  | nil =>
      by_cases h : sortKey a = q <;>
        simp [insertDesc, List.filter_cons, beq_iff_eq, h]
  | cons y ys ih =>
      by_cases hlt : sortKey a < sortKey y
      · simp only [insertDesc, if_pos hlt, List.filter_cons]
        by_cases haq : sortKey a = q
        · have hyq : ¬(sortKey y == q) = true := by
            simp only [beq_iff_eq]
            intro hy
            exact absurd (haq.trans hy.symm) (ne_of_lt hlt)
          simp only [if_pos haq] at ih ⊢
          simp [hyq, ih, haq]
        · simp only [if_neg haq] at ih ⊢
          by_cases hyq : (sortKey y == q) = true <;> simp [hyq, ih]
      · simp only [insertDesc, if_neg hlt, List.filter_cons]
        by_cases haq : sortKey a = q <;> simp [haq]

theorem filter_sortByScoreDesc (q : ℚ) (l : List CSSPropertySuggestion) :
    (sortByScoreDesc l).filter (fun s => sortKey s == q) =
      l.filter (fun s => sortKey s == q) := by
  induction l with
  | nil => rfl
  | cons a rest ih =>
      simp only [sortByScoreDesc, List.filter_cons]
      rw [filter_insertDesc a q (sortByScoreDesc rest), ih]
      by_cases h : sortKey a = q <;> simp [h]

theorem perm_insertDesc (a : CSSPropertySuggestion) :
    ∀ l, (insertDesc a l).Perm (a :: l) := by
  intro l
  induction l with
  | nil => simp [insertDesc]
  | cons y ys ih =>
      by_cases h : sortKey a < sortKey y
      · simp only [insertDesc, if_pos h]
        exact (List.Perm.cons y ih).trans (List.Perm.swap a y ys)
      · simp [insertDesc, h]

theorem perm_sortByScoreDesc (l : List CSSPropertySuggestion) :
    (sortByScoreDesc l).Perm l := by
  induction l with
  | nil => rfl
  | cons a rest ih =>
      exact (perm_insertDesc a (sortByScoreDesc rest)).trans (List.Perm.cons a ih)

theorem sortByScoreDesc_of_constKey :
    ∀ l : List CSSPropertySuggestion, (∀ s ∈ l, sortKey s = 0) →
      sortByScoreDesc l = l := by
  intro l
  induction l with
  | nil => intro; rfl
  | cons a rest ih =>
      intro h
      have hrest := ih (fun s hs => h s (List.mem_cons_of_mem a hs))
      simp only [sortByScoreDesc, hrest]
      cases hr : rest with
      | nil => rfl
      | cons y ys =>
          have hy : sortKey y = 0 := h y (by simp [hr])
          have ha : sortKey a = 0 := h a (by simp)
          simp [insertDesc, ha, hy]

theorem extractFirst_eq_none (p : CSSPropertySuggestion → Bool) :
    ∀ l, (∀ b ∈ l, p b = false) → extractFirst p l = none := by
  intro l
  induction l with
  | nil => intro; rfl
  | cons y ys ih =>
      intro h
      have hy : p y = false := h y (by simp)
      simp only [extractFirst, hy, Bool.false_eq_true, if_false]
      rw [ih (fun b hb => h b (List.mem_cons_of_mem y hb))]

theorem rankPassAux_id_of_noPromotable :
    ∀ (fuel : ℕ) (l : List CSSPropertySuggestion),
      noPromotablePairs l = true → rankPassAux fuel l = l := by
  intro fuel
  induction fuel with
  | zero => intro l _; rfl
  | succ n ih =>
      intro l hl
      cases l with
      | nil => rfl
      | cons a rest =>
          simp only [noPromotablePairs, Bool.and_eq_true, List.all_eq_true] at hl
          have hnone : extractFirst (promotablePair a) rest = none :=
            extractFirst_eq_none _ rest (fun b hb => by
              have := hl.1 b hb
              simpa using this)
          simp only [rankPassAux, hnone]
          rw [ih rest hl.2]

theorem rankByLogicalPreference_id_of_noPromotable
    (l : List CSSPropertySuggestion) (h : noPromotablePairs l = true) :
    rankByLogicalPreference l = l :=
  rankPassAux_id_of_noPromotable l.length l h

/-! ### Concrete suggestions used as test inputs -/

/-- An equal-scored candidate whose primary property is the physical `width`. -/
def physWidthSuggestion : CSSPropertySuggestion :=
  { property := "width"
    description := "physical width candidate"
    syntaxStr := "width: value;"
    browser_support :=
      { overall_support := 95, modern_browsers := true, legacy_support := "good" }
    use_cases := []
    mdn_url := ""
    relevanceScore := some 5 }

/-- An equal-scored candidate whose primary property is the writing-mode
relative equivalent `inline-size` of `width`. -/
def inlineSizeSuggestion : CSSPropertySuggestion :=
  { property := "inline-size"
    description := "logical width candidate"
    syntaxStr := "inline-size: value;"
    browser_support :=
      { overall_support := 90, modern_browsers := true, legacy_support := "good" }
    use_cases := []
    mdn_url := ""
    relevanceScore := some 5 }

/-- A minimal analysis record: keyword `display`, two suggested categories,
no detected intent or hints, confidence 0. -/
def demoAnalysis : TaskIntentAnalysis :=
  { keywords := ["display"]
    intent := []
    confidence := 0
    suggestedCategories := [.layout, .visual]
    frameworkHints := []
    contextAnalysis := { framework := none, cssFramework := none } }

/-- C4 (counterexample): on two equal-scored candidates that form a
physical/logical equivalence pair (`width` before `inline-size`), the ranked
output of lines 355–370 is *not* the stable descending sort of the input —
the logical-unit preference pass promotes `inline-size` ahead, so equal-score
candidates do not keep their prior (catalog) relative order. -/
theorem rankAndTruncate_not_input_stable :
    rankAndTruncate [physWidthSuggestion, inlineSizeSuggestion] ≠
      (sortByScoreDesc [physWidthSuggestion, inlineSizeSuggestion]).take 5 ∧
    rankAndTruncate [physWidthSuggestion, inlineSizeSuggestion] =
      [inlineSizeSuggestion, physWidthSuggestion] ∧
    (sortByScoreDesc [physWidthSuggestion, inlineSizeSuggestion]).take 5 =
      [physWidthSuggestion, inlineSizeSuggestion] := by
  refine ⟨?_, by decide, by decide⟩
  decide

/-- C4 (amended): the ranked output is the stable descending sort — by
relevance score, equal-score candidates keeping their order — of the
candidate list *as adjusted by the logical-unit preference pass*, truncated
to at most 5 results; when no equal-scored physical/logical-equivalent pair
is present the pass is the identity, so the order of equal-score candidates
is then the prior catalog iteration order exactly as claimed.  When scoring
yields zero candidates, the search is retried with the keyword extractor's
output and the first 5 of those results are returned without scores (again in
catalog order in the absence of such pairs). -/
theorem rankAndTruncate_spec :
    (∀ l : List CSSPropertySuggestion,
      (rankAndTruncate l).length ≤ 5 ∧
      List.Pairwise (fun x y => sortKey y ≤ sortKey x) (rankAndTruncate l) ∧
      (∀ q : ℚ,
        (sortByScoreDesc (rankByLogicalPreference l)).filter
            (fun s => sortKey s == q) =
          (rankByLogicalPreference l).filter (fun s => sortKey s == q)) ∧
      (noPromotablePairs l = true →
        rankAndTruncate l = (sortByScoreDesc l).take 5)) ∧
    (∀ (catalog : List CSSFeature) (mdnSyntax : String → Option String)
        (overallSupport : String → ℤ) (analysis : TaskIntentAnalysis)
        (approach : Approach),
      scoredCandidates catalog mdnSyntax overallSupport analysis approach = [] →
      noPromotablePairs
          (((searchFeatures catalog analysis.keywords).take 5).map
            (createSuggestionFromFeature overallSupport)) = true →
      searchWithIntelligentRanking catalog mdnSyntax overallSupport analysis
          approach =
        ((searchFeatures catalog analysis.keywords).take 5).map
          (createSuggestionFromFeature overallSupport)) := by
  constructor
  · intro l
    refine ⟨?_, ?_, fun q => filter_sortByScoreDesc q _, ?_⟩
    · simp only [rankAndTruncate, List.length_take]
      exact Nat.min_le_left 5 _
    · exact List.Pairwise.sublist (List.take_sublist 5 _)
        (sorted_sortByScoreDesc (rankByLogicalPreference l))
    · intro h
      simp only [rankAndTruncate, rankByLogicalPreference_id_of_noPromotable l h]
  · intro catalog mdnSyntax overallSupport analysis approach hempty hnp
    have hfb :
        searchWithIntelligentRanking catalog mdnSyntax overallSupport analysis
            approach =
          rankAndTruncate
            (((searchFeatures catalog analysis.keywords).take 5).map
              (createSuggestionFromFeature overallSupport)) := by
      simp [searchWithIntelligentRanking, hempty]
    rw [hfb, rankAndTruncate,
      rankByLogicalPreference_id_of_noPromotable _ hnp,
      sortByScoreDesc_of_constKey _ (fun s hs => by
        rcases List.mem_map.1 hs with ⟨f, _, rfl⟩
        simp [createSuggestionFromFeature, sortKey])]
    apply List.take_of_length_le
    simp only [List.length_map]
    exact Nat.le_of_eq (List.length_take 5 _) |>.trans (Nat.min_le_left 5 _)

/-- Witness for `rankAndTruncate_spec` at concrete inputs: the no-pair clause
applied to a singleton list and the fallback clause applied to the empty
catalog, with every hypothesis discharged by evaluation. -/
theorem rankAndTruncate_spec_witness :
    rankAndTruncate [physWidthSuggestion] =
      (sortByScoreDesc [physWidthSuggestion]).take 5 ∧
    searchWithIntelligentRanking [] (fun _ => none) (fun _ => (80 : ℤ))
      demoAnalysis Approach.modern = [] := by
  constructor
  · exact (rankAndTruncate_spec.1 [physWidthSuggestion]).2.2.2 (by decide)
  · have h := rankAndTruncate_spec.2 [] (fun _ => none) (fun _ => (80 : ℤ))
      demoAnalysis Approach.modern (by decide) (by decide)
    rw [h]
    decide

theorem count_flatten_replicate {α : Type} [DecidableEq α] (a : α)
    (xs : List α) : ∀ n : ℕ, ((List.replicate n xs).flatten).count a = n * xs.count a := by
  intro n
  induction n with
  | zero => simp
  | succ m ih =>
      simp [List.replicate_succ, List.count_append, ih, Nat.succ_mul]
      omega

/-- The suggestion produced for `gridFeature` under `demoAnalysis` with no
MDN syntax and a constant 80% support figure, with its relevance score
`(0 + 5) * (1 + 0) = 5` already evaluated. -/
def displayDemoSuggestion : CSSPropertySuggestion :=
  { property := "display"
    description := "Two-dimensional grid layout system"
    syntaxStr := "CSS Grid: value;"
    browser_support :=
      { overall_support := 80, modern_browsers := false, legacy_support := "good" }
    use_cases := ["General styling", "UI enhancement"]
    mdn_url := "https://developer.mozilla.org/en-US/docs/Web/CSS/CSS_Grid_Layout"
    relevanceScore := some 5 }

/-- C10: the category loop of the ranked path runs the identical keyword
search once per suggested category while ignoring the category value, so the
assembled candidate list is `n` concatenated copies of the approach-filtered
search result (each passing feature occurs `n` times, where `n` is the number
of suggested categories), and the final at-most-5 output can therefore carry
the same property in several slots — shown on a concrete run whose two
suggested categories yield `display` twice; no deduplication occurs. -/
theorem scoredCandidates_replicated :
    (∀ (catalog : List CSSFeature) (mdnSyntax : String → Option String)
        (overallSupport : String → ℤ) (analysis : TaskIntentAnalysis)
        (approach : Approach),
      scoredCandidates catalog mdnSyntax overallSupport analysis approach =
        (List.replicate analysis.suggestedCategories.length
          (((searchFeatures catalog analysis.keywords).filter
              (fun f => shouldIncludeBasedOnApproach f.support_level approach)).map
            (scoredSuggestion mdnSyntax overallSupport analysis))).flatten ∧
      ∀ s : CSSPropertySuggestion,
        (scoredCandidates catalog mdnSyntax overallSupport analysis
            approach).count s =
          analysis.suggestedCategories.length *
            ((((searchFeatures catalog analysis.keywords).filter
                (fun f => shouldIncludeBasedOnApproach f.support_level approach)).map
              (scoredSuggestion mdnSyntax overallSupport analysis)).count s)) ∧
    (searchWithIntelligentRanking [gridFeature] (fun _ => none)
        (fun _ => (80 : ℤ)) demoAnalysis Approach.progressive).map
      (fun s => s.property) = ["display", "display"] := by
  constructor
  · intro catalog mdnSyntax overallSupport analysis approach
    have hrep :
        scoredCandidates catalog mdnSyntax overallSupport analysis approach =
          (List.replicate analysis.suggestedCategories.length
            (((searchFeatures catalog analysis.keywords).filter
                (fun f => shouldIncludeBasedOnApproach f.support_level approach)).map
              (scoredSuggestion mdnSyntax overallSupport analysis))).flatten := by
      simp only [scoredCandidates, List.map_const']
    exact ⟨hrep, fun s => by rw [hrep, count_flatten_replicate]⟩
  · have hscore : calculateRelevanceScore gridFeature demoAnalysis = 5 := by
      simp [calculateRelevanceScore, demoAnalysis, gridFeature]
    have hsugg0 :
        scoredSuggestion (fun _ => none) (fun _ => (80 : ℤ)) demoAnalysis
            gridFeature =
          { displayDemoSuggestion with
              relevanceScore :=
                some (calculateRelevanceScore gridFeature demoAnalysis) } := by
      simp [scoredSuggestion, gridFeature, displayDemoSuggestion,
        getFeatureSyntax, getFeatureUseCases]
    have hsugg :
        scoredSuggestion (fun _ => none) (fun _ => (80 : ℤ)) demoAnalysis
          gridFeature = displayDemoSuggestion := by
      rw [hsugg0, hscore]
      rfl
    have hsearch : searchFeatures [gridFeature] ["display"] = [gridFeature] := by
      decide
    have hcand :
        scoredCandidates [gridFeature] (fun _ => none) (fun _ => (80 : ℤ))
          demoAnalysis Approach.progressive =
          [displayDemoSuggestion, displayDemoSuggestion] := by
      have hc : demoAnalysis.suggestedCategories =
          [CSSFeatureCategory.layout, CSSFeatureCategory.visual] := rfl
      have hk : demoAnalysis.keywords = ["display"] := rfl
      simp only [scoredCandidates, hc, hk, hsearch, List.map_cons, List.map_nil,
        List.flatten_cons, List.flatten_nil, List.append_nil]
      simp [shouldIncludeBasedOnApproach, hsugg]
    have hrun :
        searchWithIntelligentRanking [gridFeature] (fun _ => none)
            (fun _ => (80 : ℤ)) demoAnalysis Approach.progressive =
          rankAndTruncate [displayDemoSuggestion, displayDemoSuggestion] := by
      simp [searchWithIntelligentRanking, hcand]
    rw [hrun]
    decide

/-! ## Documentation client cache (`services/css/mdnClient.ts`)

The cache is the module-level `mdnCache : Map<string, {data, timestamp}>`,
modelled as an explicit association list passed through `fetchMDNData`.  The
payload type is opaque (`α`).  The two fallible tiers — `fetchFromContext7`
(structured-service) and `fetchMDNPageDirect` (direct fetch) — are modelled by
their outcomes: `some d` for a successful resolution with payload `d`, `none`
for a thrown error.  `Date.now()` is the explicit `now` argument. -/

/-- `CACHE_TTL = 1000 * 60 * 60` (one hour, in milliseconds). -/
def CACHE_TTL : ℤ := 1000 * 60 * 60

/-- A cache entry `{ data, timestamp }`. -/
structure CacheEntry (α : Type) where
  data : α
  timestamp : ℤ
deriving DecidableEq, Repr

/-- The in-memory cache keyed by `"mdn_" + property`. -/
abbrev MDNCache (α : Type) : Type := List (String × CacheEntry α)

/-- `mdnCache.get(key)`. -/
def cacheGet {α : Type} : MDNCache α → String → Option (CacheEntry α)
  | [], _ => none
  | (k, e) :: rest, key => if k = key then some e else cacheGet rest key

/-- `mdnCache.set(key, entry)`: replaces an existing binding in place, else
appends (JS `Map` insertion-order semantics). -/
def cacheSet {α : Type} : MDNCache α → String → CacheEntry α → MDNCache α
  | [], key, e => [(key, e)]
  | (k, e') :: rest, key, e =>
      if k = key then (key, e) :: rest else (k, e') :: cacheSet rest key e

/-- `isCacheValid` (mdnClient.ts lines 17–19). -/
def isCacheValid {α : Type} (now : ℤ) (cacheEntry : CacheEntry α) : Bool :=
  now - cacheEntry.timestamp < CACHE_TTL

/-- Outcome of a `fetchMDNData` call: the returned (or thrown) value, the
cache afterwards, and how many of the fallible tiers ran. -/
structure FetchOutcome (α : Type) where
  result : Except String α
  cache : MDNCache α
  tierCalls : ℕ

/-- The `try { … context7 … } catch { … direct fetch … }` part of
`fetchMDNData` (mdnClient.ts lines 34–45): a tier-2 success is cached under
the key with the current timestamp, a tier-2 failure falls back to the direct
fetch, whose success is returned *without* touching the cache
(`fetchMDNPageDirect`, lines 334–341, only fetches), and whose failure throws. -/
def fetchTiers {α : Type} (tier2 tier3 : Option α) (now : ℤ)
    (cache : MDNCache α) (cssProperty : String) : FetchOutcome α :=
  let cacheKey := "mdn_" ++ cssProperty
  match tier2 with
  | some mdnData =>
      { result := .ok mdnData
        cache := cacheSet cache cacheKey { data := mdnData, timestamp := now }
        tierCalls := 1 }
  | none =>
      match tier3 with
      | some text => { result := .ok text, cache := cache, tierCalls := 2 }
      | none =>
          { result := .error ("Failed to fetch MDN page for " ++ cssProperty)
            cache := cache
            tierCalls := 2 }

/-- `fetchMDNData` (mdnClient.ts lines 26–46). -/
def fetchMDNData {α : Type} (tier2 tier3 : Option α) (now : ℤ)
    (cache : MDNCache α) (cssProperty : String) : FetchOutcome α :=
  let cacheKey := "mdn_" ++ cssProperty
  match cacheGet cache cacheKey with
  | some cached =>
      if isCacheValid now cached then
        { result := .ok cached.data, cache := cache, tierCalls := 0 }
      else fetchTiers tier2 tier3 now cache cssProperty
  | none => fetchTiers tier2 tier3 now cache cssProperty

theorem cacheGet_cacheSet {α : Type} (key : String) (e : CacheEntry α) :
    ∀ cache : MDNCache α, cacheGet (cacheSet cache key e) key = some e := by
  intro cache
  induction cache with
  | nil => simp [cacheSet, cacheGet]
  | cons kv rest ih =>
      by_cases h : kv.1 = key
      · simp [cacheSet, h, cacheGet]
      · simp [cacheSet, h, cacheGet, ih]

/-- C6: while a cache entry younger than the 1-hour TTL exists for the key of
a property, `fetchMDNData` returns the cached payload, runs no tier, and
leaves the cache unchanged; an entry whose age is at least the TTL is treated
as absent — the call proceeds through the tier chain (at least one tier runs,
and the outcome is exactly that of a cache miss). -/
theorem fetchMDNData_ttl_spec {α : Type} (tier2 tier3 : Option α) (now : ℤ)
    (cache : MDNCache α) (p : String) (e : CacheEntry α)
    (hget : cacheGet cache ("mdn_" ++ p) = some e) :
    (now - e.timestamp < CACHE_TTL →
      fetchMDNData tier2 tier3 now cache p =
        { result := .ok e.data, cache := cache, tierCalls := 0 }) ∧
    (CACHE_TTL ≤ now - e.timestamp →
      fetchMDNData tier2 tier3 now cache p = fetchTiers tier2 tier3 now cache p ∧
      1 ≤ (fetchMDNData tier2 tier3 now cache p).tierCalls) := by
  constructor
  · intro hyoung
    simp [fetchMDNData, hget, isCacheValid, hyoung]
  · intro hold
    have hinvalid : isCacheValid now e = false := by
      simp [isCacheValid]
      omega
    have heq : fetchMDNData tier2 tier3 now cache p =
        fetchTiers tier2 tier3 now cache p := by
      simp [fetchMDNData, hget, hinvalid]
    refine ⟨heq, ?_⟩
    rw [heq]
    cases tier2 with
    | some d => simp [fetchTiers]
    | none => cases tier3 with
      | some t => simp [fetchTiers]
      | none => simp [fetchTiers]

/-- Witness for `fetchMDNData_ttl_spec`: a concrete string cache with an
entry written at time 0, read once at time 10 (young: cached payload, no tier
runs) and once at exactly the TTL (expired: the tier chain runs). -/
theorem fetchMDNData_ttl_spec_witness :
    fetchMDNData (α := String) (some "fresh") none 10
        [("mdn_display", { data := "payload", timestamp := 0 })] "display" =
      { result := .ok "payload"
        cache := [("mdn_display", { data := "payload", timestamp := 0 })]
        tierCalls := 0 } ∧
    1 ≤ (fetchMDNData (α := String) (some "fresh") none CACHE_TTL
        [("mdn_display", { data := "payload", timestamp := 0 })]
        "display").tierCalls := by
  constructor
  · exact (fetchMDNData_ttl_spec (some "fresh") none 10
      [("mdn_display", { data := "payload", timestamp := 0 })] "display"
      { data := "payload", timestamp := 0 } (by decide)).1 (by decide)
  · exact ((fetchMDNData_ttl_spec (some "fresh") none CACHE_TTL
      [("mdn_display", { data := "payload", timestamp := 0 })] "display"
      { data := "payload", timestamp := 0 } (by decide)).2 (by decide)).2

/-- C7 (counterexample): a successful tier-3 (direct-fetch) resolution does
*not* populate the cache — `fetchMDNPageDirect` only fetches.  With an empty
cache, a failed tier 2 and a successful tier 3, the call returns the page but
the cache stays empty, so no entry for the property exists afterwards. -/
theorem fetchMDNData_tier3_no_cache_write :
    (fetchMDNData (α := String) none (some "page") 0 [] "x").result =
      .ok "page" ∧
    (fetchMDNData (α := String) none (some "page") 0 [] "x").cache = [] ∧
    cacheGet (fetchMDNData (α := String) none (some "page") 0 [] "x").cache
      "mdn_x" = none :=
  ⟨rfl, rfl, rfl⟩

/-- C7 (amended): after every successful tier-2 (structured-service)
resolution the cache contains an entry keyed `"mdn_" + property` holding the
resolved payload with the resolution timestamp, and that insertion is the
only change; a successful tier-3 (direct-fetch) resolution returns the page
without touching the cache; and every `fetchMDNData` call either leaves the
cache unchanged or performs exactly the tier-2 insertion. -/
theorem fetchMDNData_cache_population {α : Type} (tier2 tier3 : Option α)
    (now : ℤ) (cache : MDNCache α) (p : String) :
    (∀ d, tier2 = some d →
      fetchTiers tier2 tier3 now cache p =
        { result := .ok d
          cache := cacheSet cache ("mdn_" ++ p) { data := d, timestamp := now }
          tierCalls := 1 } ∧
      cacheGet (fetchTiers tier2 tier3 now cache p).cache ("mdn_" ++ p) =
        some { data := d, timestamp := now }) ∧
    (∀ t, tier2 = none → tier3 = some t →
      fetchTiers tier2 tier3 now cache p =
        { result := .ok t, cache := cache, tierCalls := 2 }) ∧
    ((fetchMDNData tier2 tier3 now cache p).cache = cache ∨
      ∃ d, tier2 = some d ∧
        (fetchMDNData tier2 tier3 now cache p).cache =
          cacheSet cache ("mdn_" ++ p) { data := d, timestamp := now }) := by
  refine ⟨?_, ?_, ?_⟩
  · intro d hd
    subst hd
    exact ⟨rfl, by simp [fetchTiers, cacheGet_cacheSet]⟩
  · intro t h2 h3
    subst h2; subst h3
    rfl
  · have htiers : (fetchTiers tier2 tier3 now cache p).cache = cache ∨
        ∃ d, tier2 = some d ∧
          (fetchTiers tier2 tier3 now cache p).cache =
            cacheSet cache ("mdn_" ++ p) { data := d, timestamp := now } := by
      cases tier2 with
      | some d => exact Or.inr ⟨d, rfl, rfl⟩
      | none => cases tier3 with
        | some t => exact Or.inl rfl
        | none => exact Or.inl rfl
    cases hget : cacheGet cache ("mdn_" ++ p) with
    | some cached =>
        by_cases hv : isCacheValid now cached = true
        · left
          simp [fetchMDNData, hget, hv]
        · simp only [Bool.not_eq_true] at hv
          have heq : fetchMDNData tier2 tier3 now cache p =
              fetchTiers tier2 tier3 now cache p := by
            simp [fetchMDNData, hget, hv]
          rw [heq]
          exact htiers
    | none =>
        have heq : fetchMDNData tier2 tier3 now cache p =
            fetchTiers tier2 tier3 now cache p := by
          simp [fetchMDNData, hget]
        rw [heq]
        exact htiers

/-- Witness for `fetchMDNData_cache_population` at a concrete instance: a
successful tier-2 resolution of `"display"` at time 7 over the empty string
cache stores the payload under `"mdn_display"` with timestamp 7. -/
theorem fetchMDNData_cache_population_witness :
    fetchTiers (α := String) (some "doc") none 7 [] "display" =
      { result := .ok "doc"
        cache := [("mdn_display", { data := "doc", timestamp := 7 })]
        tierCalls := 1 } ∧
    cacheGet (fetchTiers (α := String) (some "doc") none 7 [] "display").cache
      "mdn_display" = some { data := "doc", timestamp := 7 } := by
  have h := (fetchMDNData_cache_population (α := String) (some "doc") none 7 []
    "display").1 "doc" rfl
  exact ⟨by rw [h.1]; rfl, h.2⟩

/-! ## The wired entry-point path (`services/mdnApi.ts` and `index.ts`)

`index.ts` imports `extractCSSKeywords`, `searchMDNForCSSProperties` and
`fetchBrowserSupportFromMDN` from `services/mdnApi.ts` (not from the
`services/css` engine), so the tool handlers run the keyword-table versions
embedded here. -/

/-- Rules 1–9 of `extractCSSKeywords` (mdnApi.ts lines 106–130): layout,
responsive, viewport, logical and grid keyword rules. -/
def mdnApiKeywordRulesA (incl : String → Bool) : List String :=
  List.flatten
    [
     (if incl "center" || incl "align" then ["flexbox", "grid", "text-align", "justify-content", "align-items"] else []),
     (if incl "layout" || incl "position" then ["flexbox", "grid", "position", "display"] else []),
     (if incl "responsive" then ["media-queries", "flexbox", "grid", "container-queries"] else []),
     (if incl "viewport" || incl "vw" || incl "vh" || incl "screen size" then ["viewport-units", "dynamic-viewport", "small-viewport", "large-viewport"] else []),
     (if incl "writing mode" || incl "rtl" || incl "ltr" || incl "logical" then ["logical-properties", "writing-mode"] else []),
     (if incl "auto-fit" || incl "auto-fill" || incl "repeat" || incl "same layout" then ["grid-repeat", "grid-auto-fit", "grid-auto-fill"] else []),
     (if incl "complex layout" || incl "grid area" || incl "template area" then ["grid-template-areas", "grid-areas"] else []),
     (if incl "z-index" || incl "stacking" || incl "layer order" then ["css-isolation", "stacking-context"] else []),
     (if incl "animation" || incl "transition" then ["animation", "transition", "transform"] else [])
    ]

/-- Rules 10–18 of `extractCSSKeywords` (mdnApi.ts lines 132–163): visual
and interaction keyword rules. -/
def mdnApiKeywordRulesB (incl : String → Bool) : List String :=
  List.flatten
    [
     (if incl "view transition" || incl "page transition" || incl "route transition" then ["view-transitions", "view-transition-name"] else []),
     (if incl "shadow" || incl "drop-shadow" then ["box-shadow", "drop-shadow", "filter"] else []),
     (if incl "gradient" then ["linear-gradient", "radial-gradient", "conic-gradient"] else []),
     (if incl "border" || incl "outline" then ["border", "outline", "border-radius"] else []),
     (if incl "rounded" || incl "border-radius" || incl "circular" then ["border-radius", "vmin-vmax-units"] else []),
     (if incl "margin" || incl "padding" || incl "spacing" then ["logical-properties", "margin-padding-logical"] else []),
     (if incl "hover" || incl "focus" then ["hover", "focus", "active", "focus-visible"] else []),
     (if incl "scroll" then ["scroll-behavior", "overflow", "scroll-snap"] else []),
     (if incl "scroll behavior" || incl "smooth scroll" || incl "scroll animation" then ["scroll-behavior", "scroll-timeline"] else [])
    ]

/-- Rules 19–26 of `extractCSSKeywords` (mdnApi.ts lines 165–200):
overflow, typography, color and modern-feature keyword rules. -/
def mdnApiKeywordRulesC (incl : String → Bool) : List String :=
  List.flatten
    [
     (if incl "overflow" || incl "scroll container" || incl "scrollable" then ["overflow-behavior", "scroll-snap", "overscroll-behavior"] else []),
     (if incl "accordion" || incl "collapsible" || incl "expand" then ["details-content", "accordion-styling"] else []),
     (if incl "text" || incl "font" then ["font-family", "font-size", "line-height", "text-align"] else []),
     (if incl "text cut" || incl "line height" || incl "text trim" || incl "leading" then ["text-box-trim", "leading-trim"] else []),
     (if incl "color" || incl "background" then ["color", "background-color", "background-image", "relative-colors"] else []),
     (if incl "color mix" || incl "blend colors" || incl "mix colors" then ["color-mix", "color-blend"] else []),
     (if incl "carousel" || incl "slider" || incl "slide" then ["scroll-snap", "scroll-driven-animations", "css-carousel"] else []),
     (if incl "tooltip" || incl "popover" || incl "popup" then ["anchor-positioning", "popover-api", "tooltip-positioning"] else [])
    ]

/-- Rules 27–34 of `extractCSSKeywords` (mdnApi.ts lines 195–218):
selector, container-query and at-rule keyword rules. -/
def mdnApiKeywordRulesD (incl : String → Bool) : List String :=
  List.flatten
    [
     (if incl "layer" || incl "specificity" || incl "cascade" then ["css-layers", "cascade-layers"] else []),
     (if incl "support" || incl "feature detection" || incl "fallback" then ["css-supports", "feature-queries"] else []),
     (if incl "selector" || incl "target" || incl "match" then ["modern-selectors", "css-is", "css-where", "css-has"] else []),
     (if incl "relative color" || incl "color transformation" || incl "color manipulation" then ["relative-colors", "color-functions"] else []),
     (if incl "container query" || incl "parent container" || incl "container style" then ["container-style-queries", "container-queries", "container-query-units"] else []),
     (if incl "scroll state" || incl "scroll position" || incl "container scroll" then ["container-scroll-state", "scroll-state-queries"] else []),
     (if incl "conditional css" || incl "@if" || incl "css conditions" then ["css-conditionals", "css-if"] else []),
     (if incl "@rule" || incl "at-rule" || incl "css rule" then ["css-at-rules", "at-rules"] else [])
    ]

/-- `extractCSSKeywords` (mdnApi.ts lines 102–221): the ordered rule list,
each rule appending its token set when its substring condition fires over the
lower-cased description, deduplicated at the end (the rules are grouped into
four blocks purely to keep elaboration linear; their order is the source
order). -/
def mdnApiExtractCSSKeywords (description : String) : List String :=
  let incl := fun lit => inclLower description lit
  jsDedup (mdnApiKeywordRulesA incl ++ mdnApiKeywordRulesB incl ++
    mdnApiKeywordRulesC incl ++ mdnApiKeywordRulesD incl)

/-- A `propertyMappings` suggestion as read by the control flow: its
`property` name (which coincides with its table key for every entry) and its
`browser_support.overall_support` percentage; the remaining fields
(description, syntax example, use cases, URL, modern/legacy flags) are inert
strings never branched on and are not carried. -/
structure MDNApiSuggestion where
  property : String
  overall_support : ℤ
deriving DecidableEq, Repr

/-- The 55-entry `propertyMappings` table of `searchMDNForCSSProperties`
(mdnApi.ts lines 233–894), keyed by `property`. -/
def mdnApiPropertyMappings : List MDNApiSuggestion :=
  [⟨"flexbox", 96⟩, ⟨"grid", 92⟩, ⟨"animation", 94⟩, ⟨"transition", 96⟩,
   ⟨"container-queries", 75⟩, ⟨"scroll-snap", 88⟩, ⟨"css-carousel", 85⟩,
   ⟨"scroll-driven-animations", 65⟩, ⟨"anchor-positioning", 45⟩,
   ⟨"popover-api", 55⟩, ⟨"css-layers", 78⟩, ⟨"cascade-layers", 78⟩,
   ⟨"css-supports", 92⟩, ⟨"feature-queries", 92⟩, ⟨"modern-selectors", 82⟩,
   ⟨"css-is", 88⟩, ⟨"css-where", 82⟩, ⟨"css-has", 75⟩,
   ⟨"relative-colors", 45⟩, ⟨"color-functions", 58⟩, ⟨"text-box-trim", 25⟩,
   ⟨"leading-trim", 20⟩, ⟨"grid-repeat", 92⟩, ⟨"grid-auto-fit", 92⟩,
   ⟨"grid-auto-fill", 92⟩, ⟨"grid-template-areas", 92⟩, ⟨"grid-areas", 92⟩,
   ⟨"view-transitions", 35⟩, ⟨"view-transition-name", 35⟩,
   ⟨"container-style-queries", 15⟩, ⟨"container-scroll-state", 10⟩,
   ⟨"scroll-state-queries", 10⟩, ⟨"css-conditionals", 5⟩, ⟨"css-if", 5⟩,
   ⟨"color-mix", 65⟩, ⟨"color-blend", 65⟩, ⟨"css-at-rules", 85⟩,
   ⟨"at-rules", 95⟩, ⟨"details-content", 15⟩, ⟨"accordion-styling", 88⟩,
   ⟨"css-isolation", 78⟩, ⟨"stacking-context", 85⟩,
   ⟨"container-query-units", 75⟩, ⟨"viewport-units", 68⟩,
   ⟨"dynamic-viewport", 68⟩, ⟨"small-viewport", 68⟩, ⟨"large-viewport", 68⟩,
   ⟨"vmin-vmax-units", 94⟩, ⟨"logical-properties", 87⟩,
   ⟨"margin-padding-logical", 87⟩, ⟨"writing-mode", 89⟩,
   ⟨"scroll-behavior", 75⟩, ⟨"scroll-timeline", 35⟩,
   ⟨"overflow-behavior", 85⟩, ⟨"overscroll-behavior", 77⟩]

/-- `propertyMappings[keyword]`. -/
def mappingLookup (keyword : String) : Option MDNApiSuggestion :=
  mdnApiPropertyMappings.find? (fun m => m.property == keyword)

/-- `searchMDNForCSSProperties(keywords, approach)` (mdnApi.ts lines
229–912): per keyword, table lookup, then the two `continue` filters —
`compatible` skips entries below 90% support, `modern` skips entries below
70% — and every surviving suggestion is pushed. -/
def searchMDNForCSSPropertiesKeywords (keywords : List String)
    (approach : String) : List MDNApiSuggestion :=
  keywords.filterMap (fun keyword =>
    match mappingLookup keyword with
    | none => none
    | some suggestion =>
        if approach = "compatible" ∧ suggestion.overall_support < 90 then none
        else if approach = "modern" ∧ suggestion.overall_support < 70 then none
        else some suggestion)

/-- The result shape of the `suggest_css_solution` handler as far as the
claims read it: the `success` flag and the suggestion list (the handler's
`message` and per-suggestion consent strings are inert and omitted). -/
structure SuggestToolResult where
  success : Bool
  suggestions : List MDNApiSuggestion
deriving DecidableEq, Repr

/-- The `suggest_css_solution` handler core (index.ts lines 57–101): keyword
extraction, keyword search, and the empty-result branch with its
`success:false` indicator.  The embedding is a total function — the handler
body throws for no input, and its `try/catch` shell catches anything the
runtime might raise. -/
def suggest_css_solution (task_description : String)
    (preferred_approach : String := "modern") : SuggestToolResult :=
  let cssKeywords := mdnApiExtractCSSKeywords task_description
  let suggestions :=
    searchMDNForCSSPropertiesKeywords cssKeywords preferred_approach
  if suggestions.isEmpty then { success := false, suggestions := [] }
  else { success := true, suggestions := suggestions }

/-- C8: for every task description and approach the handler returns a value
(the embedding is total, so no exception escapes); whenever no candidate
survives filtering it returns the empty list with a false success indicator,
the success flag is false exactly when the suggestion list is empty, and the
empty description in particular yields `⟨false, []⟩`. -/
theorem suggest_css_solution_spec :
    (∀ (description approach : String),
      ((suggest_css_solution description approach).suggestions = [] ↔
        (suggest_css_solution description approach).success = false) ∧
      (suggest_css_solution description approach =
          { success := false, suggestions := [] } ∨
        (suggest_css_solution description approach).success = true)) ∧
    (∀ approach : String,
      suggest_css_solution "" approach =
        { success := false, suggestions := [] }) := by
  constructor
  · intro description approach
    by_cases h : (searchMDNForCSSPropertiesKeywords
        (mdnApiExtractCSSKeywords description) approach).isEmpty = true
    · simp [suggest_css_solution, h]
    · constructor
      · simp only [suggest_css_solution, h, if_false]
        constructor
        · intro habs
          exact absurd (List.isEmpty_iff.2 habs) (by simp [h])
        · intro habs
          simp at habs
      · right
        simp [suggest_css_solution, h]
  · intro approach
    have hk : mdnApiExtractCSSKeywords "" = [] := by decide
    simp [suggest_css_solution, hk, searchMDNForCSSPropertiesKeywords]

/-! ## Browser-support checking (`services/mdnApi.ts`, `index.ts`) -/

/-- `BrowserSupportInfo` as read by the claims and the handler's control
flow: the overall percentage and the experimental-feature list (the
per-browser version strings are inert data never branched on and are not
carried). -/
structure BrowserSupportInfo where
  overall_support : ℤ
  experimental_features : List String
deriving DecidableEq, Repr

/-- The 21-entry `supportData` table of `fetchBrowserSupportFromMDN`
(mdnApi.ts lines 922–1133); each entry's experimental list is emptied when
`includeExperimental` is false, exactly as the source's
`includeExperimental ? […] : []` conditionals.  Note the table has no
`"display"` key. -/
def mdnApiSupportData (includeExperimental : Bool) :
    List (String × BrowserSupportInfo) :=
  let exp := fun (l : List String) => if includeExperimental then l else []
  [("flexbox", ⟨96, []⟩),
   ("grid", ⟨92, exp ["subgrid", "masonry"]⟩),
   ("container-queries", ⟨75, exp ["container-type", "container-name"]⟩),
   ("scroll-snap", ⟨88, exp ["scroll-snap-stop"]⟩),
   ("anchor-positioning", ⟨45, exp ["anchor-scope", "position-try"]⟩),
   ("css-layers", ⟨78, exp ["layer-revert"]⟩),
   ("css-supports", ⟨92, exp ["supports-selector"]⟩),
   ("css-has", ⟨75, exp ["has-forgiving-parsing"]⟩),
   ("relative-colors", ⟨45, exp ["color-mix", "light-dark"]⟩),
   ("text-box-trim", ⟨25, exp ["leading-trim", "text-edge"]⟩),
   ("view-transitions",
     ⟨35, exp ["view-transition-class", "cross-document-transitions"]⟩),
   ("container-style-queries", ⟨15, exp ["style-queries", "state-queries"]⟩),
   ("color-mix", ⟨65, exp ["oklch-interpolation", "color-spaces"]⟩),
   ("css-isolation", ⟨78, exp ["isolation-mode"]⟩),
   ("grid-template-areas", ⟨92, exp ["subgrid-areas"]⟩),
   ("container-query-units", ⟨75, exp ["cqh", "cqw"]⟩),
   ("viewport-units", ⟨68, exp ["container-viewport-units"]⟩),
   ("logical-properties", ⟨87, exp ["logical-resize", "logical-position"]⟩),
   ("scroll-behavior", ⟨75, exp ["scroll-behavior-instant"]⟩),
   ("overscroll-behavior", ⟨77, exp ["overscroll-behavior-inline"]⟩),
   ("vmin-vmax-units", ⟨94, []⟩)]

/-- `fetchBrowserSupportFromMDN` (mdnApi.ts lines 920–1147): table lookup
with the 85%-support default for properties absent from the table. -/
def mdnApiFetchBrowserSupport (property : String)
    (includeExperimental : Bool) : BrowserSupportInfo :=
  match (mdnApiSupportData includeExperimental).find?
      (fun kv => kv.1 == property) with
  | some kv => kv.2
  | none => { overall_support := 85, experimental_features := [] }

/-- `generateBrowserSupportRecommendation` (mdnApi.ts lines 1488–1498). -/
def generateBrowserSupportRecommendation
    (supportInfo : BrowserSupportInfo) : String :=
  if supportInfo.overall_support ≥ 95 then
    "Excellent browser support - safe to use in production"
  else if supportInfo.overall_support ≥ 85 then
    "Good browser support - consider fallbacks for legacy browsers"
  else if supportInfo.overall_support ≥ 70 then
    "Moderate browser support - use with caution and provide fallbacks"
  else
    "Limited browser support - consider alternative approaches"

/-- Result of the `check_css_browser_support` handler (index.ts lines
110–149). -/
structure CheckSupportResult where
  property : String
  browser_support : BrowserSupportInfo
  recommendation : String
  safe_to_use : Bool
deriving DecidableEq, Repr

/-- `check_css_browser_support` handler core (index.ts lines 117–137). -/
def check_css_browser_support (css_property : String)
    (include_experimental : Bool := false) : CheckSupportResult :=
  let supportInfo := mdnApiFetchBrowserSupport css_property include_experimental
  { property := css_property
    browser_support := supportInfo
    recommendation := generateBrowserSupportRecommendation supportInfo
    safe_to_use := supportInfo.overall_support ≥ 80 }

/-- C9 (counterexample): `check_support("display", include_experimental =
false)` does *not* return the catalog value 98 — the handler resolves through
`mdnApi.ts`'s `fetchBrowserSupportFromMDN`, whose `supportData` table has no
`"display"` key, so the 85% default applies (the 98 of
`css/mdnClient.ts`'s `getBrowserSupportPercentage` is never consulted by this
handler). -/
theorem check_support_display_ne_98 :
    (check_css_browser_support "display" false).browser_support.overall_support ≠
      98 := by
  decide

/-- C9 (amended): `check_support("display", include_experimental = false)`
returns an empty `experimental_features` list and `overall_support = 85`, the
default for properties absent from `mdnApi.ts`'s support table. -/
theorem check_support_display_spec :
    (check_css_browser_support "display" false).browser_support.experimental_features =
      [] ∧
    (check_css_browser_support "display" false).browser_support.overall_support =
      85 ∧
    check_css_browser_support "display" false =
      { property := "display"
        browser_support := { overall_support := 85, experimental_features := [] }
        recommendation :=
          "Good browser support - consider fallbacks for legacy browsers"
        safe_to_use := true } := by
  refine ⟨?_, ?_, ?_⟩ <;> decide
